import Mathlib

/-!
Verification of the `bperm` request-authorization middleware (bperm.go).

The Go package decides, per HTTP request, whether the request is allowed,
from the request path and an external "is the caller an admin" capability.
We embed the decision engine shallowly:

* `Request` keeps only `req.URL.Path`, the single request field the
  decision engine reads.
* `UserState` is the external collaborator, reduced to the one capability
  the engine consumes: `IsCurrentUserAdmin : Request -> Bool × Option String`
  (the `Option String` models Go's `error` result, `none` = `nil`).
* `http.HandlerFunc` side effects are modelled by a pure
  `Request -> HttpResponse` function; `ServeHTTP` returns which handler
  was invoked together with its response.
-/

namespace BPerm

/-- An HTTP request, reduced to the one field the engine reads: `req.URL.Path`. -/
structure Request where
  path : String
deriving DecidableEq

/-- The observable outcome of an `http.HandlerFunc`: response status and body. -/
structure HttpResponse where
  status : Nat
  body : String
deriving DecidableEq

/-- Go `http.HandlerFunc`, modelled as a pure response computation. -/
def HandlerFunc : Type := Request → HttpResponse

/-- Go `http.StatusForbidden`. -/
def StatusForbidden : Nat := 403

/-- The external user-state collaborator, reduced to the capability the
engine consumes: `IsCurrentUserAdmin(req) -> (bool, error)`. -/
structure UserState where
  IsCurrentUserAdmin : Request → Bool × Option String

/-- Embeds the Go type `Paths` together with its three constants
`aPaths = "AdminPaths"`, `uPaths = "UserPaths"`, `pPaths = "PubblicPaths"`;
only the three constants are ever used as keys, so the constants become
constructors. -/
inductive Paths where
  | aPaths
  | uPaths
  | pPaths
deriving DecidableEq

/-- Embeds the Go struct `Permissions` from bperm.go: the `map[Paths][]string`
becomes a total function on the three keys. -/
structure Permissions where
  state : UserState
  paths : Paths → List String
  rootIsPublic : Bool
  denied : HandlerFunc

/-- Embeds Go `strings.HasPrefix(s, pre)` character by character:
true when `pre` is an initial segment of `s`. -/
def hasPreChars : List Char → List Char → Bool
  | _, [] => true
  | [], _ :: _ => false
  | c :: cs, d :: ds => c == d && hasPreChars cs ds

/-- Go `strings.HasPrefix(s, pre)` on strings. -/
def hasPre (s pre : String) : Bool :=
  hasPreChars s.data pre.data

/-- Pointwise update of the path map at one key; embeds a Go map assignment
`m[k] = v`. -/
def setPathMap (m : Paths → List String) (k : Paths) (v : List String) :
    Paths → List String :=
  fun q => if q = k then v else m q

/-- The default path map built by `NewFromUserState` in bperm.go.  The list
for `pPaths` is transcribed literally from the source, which lists
"/favicon.ico" twice. -/
def defaultPathsMap : Paths → List String
  | Paths.aPaths => ["/admin"]
  | Paths.uPaths => ["/profiles", "/data"]
  | Paths.pPaths =>
      ["/", "/login", "/register",
       "/favicon.ico", "/style",
       "/img", "/js", "/favicon.ico",
       "/robots.txt", "/sitemap_index.xml"]

/-- Embeds `DefaultDenyFunc` from bperm.go:
`http.Error(w, "Permission denied.", http.StatusForbidden)`. -/
def DefaultDenyFunc : HandlerFunc :=
  fun _ => { status := StatusForbidden, body := "Permission denied." }

/-- Embeds `NewFromUserState` from bperm.go. -/
def NewFromUserState (state : UserState) : Permissions :=
  { state := state
    paths := defaultPathsMap
    rootIsPublic := true
    denied := DefaultDenyFunc }

/-- Embeds `(perm *Permissions) SetDenyFunc(f)`. -/
def SetDenyFunc (perm : Permissions) (f : HandlerFunc) : Permissions :=
  { perm with denied := f }

/-- Embeds `(perm *Permissions) GetDenyFunc()`. -/
def GetDenyFunc (perm : Permissions) : HandlerFunc :=
  perm.denied

/-- Embeds `(perm *Permissions) GetUserState()`. -/
def GetUserState (perm : Permissions) : UserState :=
  perm.state

/-- Embeds `(perm *Permissions) AddPath(valid, pre)`:
`perm.paths[valid] = append(perm.paths[valid], pre)`. -/
def AddPath (perm : Permissions) (valid : Paths) (pre : String) : Permissions :=
  { perm with paths := setPathMap perm.paths valid (perm.paths valid ++ [pre]) }

/-- Embeds `(perm *Permissions) SetPath(valid, ps)`:
`perm.paths[valid] = ps`. -/
def SetPath (perm : Permissions) (valid : Paths) (ps : List String) : Permissions :=
  { perm with paths := setPathMap perm.paths valid ps }

/-- Embeds `(perm *Permissions) Reset()`:
sets `perm.paths[aPaths]` and `perm.paths[uPaths]` to empty lists. -/
def Reset (perm : Permissions) : Permissions :=
  { perm with
      paths := setPathMap (setPathMap perm.paths Paths.aPaths []) Paths.uPaths [] }

/-- The admin-stage loop of `Rejected` (bperm.go lines 116-123): walk the
admin path list in order; on the first matching entry whose identity query
answers "not admin", reject and break; a matching entry with an "admin"
answer falls through to the next entry. -/
def adminReject (state : UserState) (req : Request) (path : String) :
    List String → Bool
  | [] => false
  | pfx :: rest =>
    if hasPre path pfx then
      if !(state.IsCurrentUserAdmin req).1 then true
      else adminReject state req path rest
    else adminReject state req path rest

/-- The public-stage loop of `Rejected` (bperm.go lines 132-138): does any
entry of the public path list match the path? -/
def publicFound (path : String) : List String → Bool
  | [] => false
  | pfx :: rest => if hasPre path pfx then true else publicFound path rest

/-- Embeds `(perm *Permissions) Rejected(w, req)` from bperm.go:
root short-circuit, then the admin stage (which consults the identity query
and discards its error), then default-deny unless a public entry matches. -/
def Rejected (perm : Permissions) (req : Request) : Bool :=
  if perm.rootIsPublic && (req.path == "/") then false
  else if adminReject perm.state req req.path (perm.paths Paths.aPaths) then true
  else !(publicFound req.path (perm.paths Paths.pPaths))

/-- Which handler `ServeHTTP` invoked, and the response it produced. -/
structure ServeOutcome where
  deniedInvoked : Bool
  nextInvoked : Bool
  response : HttpResponse

/-- Embeds `(perm *Permissions) ServeHTTP(w, req, next)` from bperm.go:
on rejection, call the configured deny handler and return without calling
`next`; otherwise call `next`. -/
def ServeHTTP (perm : Permissions) (req : Request) (next : HandlerFunc) :
    ServeOutcome :=
  if Rejected perm req then
    { deniedInvoked := true, nextInvoked := false, response := GetDenyFunc perm req }
  else
    { deniedInvoked := false, nextInvoked := true, response := next req }

/-- A user-state whose identity query always answers `(true, nil)`. -/
def adminTrueState : UserState :=
  ⟨fun _ => (true, none)⟩

/-- A user-state whose identity query always answers `(false, nil)`. -/
def nonAdminState : UserState :=
  ⟨fun _ => (false, none)⟩

/-- A user-state whose identity query always reports an error together with
a `true` admin flag, `(true, err)`. -/
def errTrueState : UserState :=
  ⟨fun _ => (true, some "identity backend failure")⟩

/-- A user-state whose identity query always reports an error together with
a `false` admin flag, `(false, err)`. -/
def errFalseState : UserState :=
  ⟨fun _ => (false, some "identity backend failure")⟩

/-- A rule table whose Admin category contains the single entry "/", with
root-is-public set, used to probe the interaction of the root short-circuit
with the Admin stage. -/
def rootAdminPerm : Permissions :=
  { state := nonAdminState
    paths := fun k =>
      match k with
      | Paths.aPaths => ["/"]
      | Paths.uPaths => []
      | Paths.pPaths => []
    rootIsPublic := true
    denied := DefaultDenyFunc }

/-- If no entry of the list matches the path, the admin-stage loop never
rejects (and never consults the identity query). -/
theorem adminReject_eq_false_of_no_match (s : UserState) (req : Request)
    (path : String) (l : List String)
    (h : l.any (fun p => hasPre path p) = false) :
    adminReject s req path l = false := by
  induction l with
  | nil => rfl
  | cons a t ih =>
    simp only [List.any_cons, Bool.or_eq_false_iff] at h
    simp only [adminReject, h.1, Bool.false_eq_true, if_false]
    exact ih h.2

/-- If some entry of the list matches the path and the identity query's
boolean answer for this request is `false`, the admin-stage loop rejects. -/
theorem adminReject_eq_true_of_match (s : UserState) (req : Request)
    (path : String) (l : List String)
    (hq : (s.IsCurrentUserAdmin req).1 = false)
    (h : l.any (fun p => hasPre path p) = true) :
    adminReject s req path l = true := by
  induction l with
  | nil => simp [List.any_nil] at h
  | cons a t ih =>
    cases hp : hasPre path a with
    | true => simp [adminReject, hp, hq]
    | false =>
      simp only [List.any_cons, hp, Bool.false_or] at h
      simp only [adminReject, hp, Bool.false_eq_true, if_false]
      exact ih h

/-- C1, counterexample: with the default configuration and an identity query
answering `(true, nil)`, evaluating "/admin/dashboard" does NOT yield deny,
contrary to the claim. -/
theorem C1_counterexample :
    adminTrueState.IsCurrentUserAdmin ⟨"/admin/dashboard"⟩ = (true, none) ∧
    ¬(Rejected (NewFromUserState adminTrueState) ⟨"/admin/dashboard"⟩ = true) := by
  decide

/-- C1, amended: with the default configuration and an identity query
answering `(true, nil)`, evaluating "/admin/dashboard" yields allow: the
Admin check passes, and the Public stage does find a match, because the
default Public list contains "/", which prefix-matches every path. -/
theorem C1_amended :
    Rejected (NewFromUserState adminTrueState) ⟨"/admin/dashboard"⟩ = false ∧
    hasPre "/admin/dashboard" "/" = true ∧
    publicFound "/admin/dashboard" (defaultPathsMap Paths.pPaths) = true := by
  decide

/-- C2, counterexample: with the default configuration and an identity query
answering `(false, nil)`, evaluating "/unknown/page" does NOT yield deny,
contrary to the claim. -/
theorem C2_counterexample :
    nonAdminState.IsCurrentUserAdmin ⟨"/unknown/page"⟩ = (false, none) ∧
    ¬(Rejected (NewFromUserState nonAdminState) ⟨"/unknown/page"⟩ = true) := by
  decide

/-- C2, amended: with the default configuration and an identity query
answering `(false, nil)`, evaluating "/unknown/page" yields allow: although
no Admin prefix matches, the default Public list contains "/", which
prefix-matches every path, so the Public stage matches. -/
theorem C2_amended :
    Rejected (NewFromUserState nonAdminState) ⟨"/unknown/page"⟩ = false ∧
    adminReject nonAdminState ⟨"/unknown/page"⟩ "/unknown/page"
      (defaultPathsMap Paths.aPaths) = false ∧
    hasPre "/unknown/page" "/" = true ∧
    publicFound "/unknown/page" (defaultPathsMap Paths.pPaths) = true := by
  decide

/-- C3, counterexample: starting from the default configuration, after
`Reset()`, evaluating "/admin/dashboard" with an identity query answering
`(false, nil)` does NOT yield deny, contrary to the claim. -/
theorem C3_counterexample :
    ¬(Rejected (Reset (NewFromUserState nonAdminState)) ⟨"/admin/dashboard"⟩
      = true) := by
  decide

/-- C3, amended: after `Reset()` the Admin list is empty so the Admin stage
matches nothing, the Public list is untouched, and evaluating
"/admin/dashboard" with `(false, nil)` yields allow, because the untouched
Public list contains "/", which prefix-matches the path. -/
theorem C3_amended :
    (Reset (NewFromUserState nonAdminState)).paths Paths.aPaths = [] ∧
    (Reset (NewFromUserState nonAdminState)).paths Paths.pPaths =
      defaultPathsMap Paths.pPaths ∧
    hasPre "/admin/dashboard" "/" = true ∧
    Rejected (Reset (NewFromUserState nonAdminState)) ⟨"/admin/dashboard"⟩
      = false := by
  decide

/-- C4, counterexample: with the default configuration, for the
Admin-matching path "/admin/x", an identity query that reports an error
alongside a `true` flag is treated as admin — evaluation allows — whereas a
query answering `(false, nil)` denies; so an erroring query is NOT always
handled as if it had returned `(false, nil)`. -/
theorem C4_counterexample :
    errTrueState.IsCurrentUserAdmin ⟨"/admin/x"⟩ =
      (true, some "identity backend failure") ∧
    hasPre "/admin/x" "/admin" = true ∧
    Rejected (NewFromUserState errTrueState) ⟨"/admin/x"⟩ = false ∧
    Rejected (NewFromUserState nonAdminState) ⟨"/admin/x"⟩ = true := by
  decide

/-- C4, amended: the evaluator discards the identity query's error component
and uses only its boolean. For every rule table and every path matching an
Admin prefix (and not exempted by the root short-circuit), when the query
returns `(false, err)` the evaluation denies exactly as it does for a query
returning `(false, nil)`; no error value is returned from the evaluation. -/
theorem C4_amended (perm : Permissions) (req : Request) (e : String)
    (hq : perm.state.IsCurrentUserAdmin req = (false, some e))
    (hmatch : (perm.paths Paths.aPaths).any (fun p => hasPre req.path p) = true)
    (hroot : (perm.rootIsPublic && (req.path == "/")) = false) :
    Rejected perm req = true ∧
    Rejected { perm with state := nonAdminState } req = true := by
  have hq1 : (perm.state.IsCurrentUserAdmin req).1 = false := by rw [hq]
  have ha := adminReject_eq_true_of_match perm.state req req.path
    (perm.paths Paths.aPaths) hq1 hmatch
  have hb := adminReject_eq_true_of_match nonAdminState req req.path
    (perm.paths Paths.aPaths) rfl hmatch
  constructor
  · simp [Rejected, hroot, ha]
  · simp [Rejected, hroot, hb]

/-- C4, witness: the amended theorem applied to the default configuration
over a query answering `(false, err)` and path "/admin/settings". -/
theorem C4_witness :
    (NewFromUserState errFalseState).state.IsCurrentUserAdmin
      ⟨"/admin/settings"⟩ = (false, some "identity backend failure") ∧
    Rejected (NewFromUserState errFalseState) ⟨"/admin/settings"⟩ = true :=
  ⟨by decide,
    (C4_amended (NewFromUserState errFalseState) ⟨"/admin/settings"⟩
      "identity backend failure" (by decide) (by decide) (by decide)).1⟩

/-- C5: for every rule table and every identity-query behavior, if
root-is-public is true and the request path is exactly "/", evaluation
returns allow (deny = false). -/
theorem C5_root_is_public_allows (perm : Permissions) (req : Request)
    (hroot : perm.rootIsPublic = true) (hpath : req.path = "/") :
    Rejected perm req = false := by
  simp [Rejected, hroot, hpath]

/-- C5, witness: the root-allow theorem applied to the default configuration
with an always-true identity query. -/
theorem C5_witness :
    (NewFromUserState adminTrueState).rootIsPublic = true ∧
    Rejected (NewFromUserState adminTrueState) ⟨"/"⟩ = false :=
  ⟨rfl, C5_root_is_public_allows (NewFromUserState adminTrueState) ⟨"/"⟩ rfl rfl⟩

/-- C6, counterexample: a rule table with Admin = ["/"] and root-is-public
set: the path "/" matches the Admin entry "/" and the identity query answers
`(false, nil)`, yet evaluation allows — the root short-circuit fires before
the Admin stage, so the claim as stated is false. -/
theorem C6_counterexample :
    ((rootAdminPerm.paths Paths.aPaths).any (fun p => hasPre "/" p) = true) ∧
    rootAdminPerm.state.IsCurrentUserAdmin ⟨"/"⟩ = (false, none) ∧
    ¬(Rejected rootAdminPerm ⟨"/"⟩ = true) := by
  decide

/-- C6, amended: for every rule table and every path matching an Admin
prefix, except when root-is-public is true and the path is exactly "/", an
identity query answering `(false, nil)` makes evaluation deny — regardless
of the Public list, so even when the path also matches a Public prefix. -/
theorem C6_amended (perm : Permissions) (req : Request)
    (hroot : (perm.rootIsPublic && (req.path == "/")) = false)
    (hmatch : (perm.paths Paths.aPaths).any (fun p => hasPre req.path p) = true)
    (hq : perm.state.IsCurrentUserAdmin req = (false, none)) :
    Rejected perm req = true := by
  have hq1 : (perm.state.IsCurrentUserAdmin req).1 = false := by rw [hq]
  have ha := adminReject_eq_true_of_match perm.state req req.path
    (perm.paths Paths.aPaths) hq1 hmatch
  simp [Rejected, hroot, ha]

/-- C6, witness: the amended theorem applied to the default configuration
and path "/admin/dashboard", which also matches the Public entry "/" — the
Admin-stage denial wins anyway. -/
theorem C6_witness :
    publicFound "/admin/dashboard" (defaultPathsMap Paths.pPaths) = true ∧
    Rejected (NewFromUserState nonAdminState) ⟨"/admin/dashboard"⟩ = true :=
  ⟨by decide,
    C6_amended (NewFromUserState nonAdminState) ⟨"/admin/dashboard"⟩
      (by decide) (by decide) rfl⟩

/-- C7: `ServeHTTP` invokes the configured deny responder (and not the
continuation) exactly when evaluation denies, and the continuation (and not
the deny responder) exactly when it allows; the produced response is the
corresponding handler's. -/
theorem C7_middleware_dispatch (perm : Permissions) (req : Request)
    (next : HandlerFunc) :
    (ServeHTTP perm req next).deniedInvoked = Rejected perm req ∧
    (ServeHTTP perm req next).nextInvoked = !(Rejected perm req) ∧
    (ServeHTTP perm req next).response =
      (if Rejected perm req then GetDenyFunc perm req else next req) := by
  unfold ServeHTTP
  cases h : Rejected perm req <;> simp [h]

/-- C8: `Reset()` empties the Admin-category and User-category lists and
leaves the Public-category list, the root-is-public flag, the deny
responder, and the user-state handle unchanged, for every prior state. -/
theorem C8_reset_frame (perm : Permissions) :
    (Reset perm).paths Paths.aPaths = [] ∧
    (Reset perm).paths Paths.uPaths = [] ∧
    (Reset perm).paths Paths.pPaths = perm.paths Paths.pPaths ∧
    (Reset perm).rootIsPublic = perm.rootIsPublic ∧
    (Reset perm).denied = perm.denied ∧
    (Reset perm).state = perm.state :=
  ⟨rfl, rfl, rfl, rfl, rfl, rfl⟩

/-- C9, counterexample: the Public list seeded by `NewFromUserState` is not
the nine-element list stated in the claim — the source seeds
"/favicon.ico" twice, giving a ten-element list. -/
theorem C9_counterexample :
    ¬((NewFromUserState adminTrueState).paths Paths.pPaths =
      ["/", "/login", "/register", "/favicon.ico", "/style",
       "/img", "/js", "/robots.txt", "/sitemap_index.xml"]) := by
  decide

/-- C9, amended: `NewFromUserState` seeds Admin = ["/admin"],
User = ["/profiles", "/data"], and Public as the ten-element list with
"/favicon.ico" occurring twice, sets root-is-public to true, and installs
the default deny responder, which answers HTTP 403 with the fixed message
"Permission denied.". -/
theorem C9_default_construction (state : UserState) (req : Request) :
    (NewFromUserState state).paths Paths.aPaths = ["/admin"] ∧
    (NewFromUserState state).paths Paths.uPaths = ["/profiles", "/data"] ∧
    (NewFromUserState state).paths Paths.pPaths =
      ["/", "/login", "/register", "/favicon.ico", "/style",
       "/img", "/js", "/favicon.ico", "/robots.txt", "/sitemap_index.xml"] ∧
    (NewFromUserState state).rootIsPublic = true ∧
    (NewFromUserState state).denied = DefaultDenyFunc ∧
    DefaultDenyFunc req = { status := 403, body := "Permission denied." } :=
  ⟨rfl, rfl, rfl, rfl, rfl, rfl⟩

/-- C10: for every rule table, whenever the path matches no Admin prefix,
or the root short-circuit applies, the verdict is independent of the
identity query: any two user-states produce the same result of `Rejected`. -/
theorem C10_query_independent (paths : Paths → List String) (rip : Bool)
    (d : HandlerFunc) (s1 s2 : UserState) (req : Request)
    (h : (paths Paths.aPaths).any (fun p => hasPre req.path p) = false ∨
         (rip && (req.path == "/")) = true) :
    Rejected ⟨s1, paths, rip, d⟩ req = Rejected ⟨s2, paths, rip, d⟩ req := by
  cases h with
  | inl hl =>
    have h1 := adminReject_eq_false_of_no_match s1 req req.path
      (paths Paths.aPaths) hl
    have h2 := adminReject_eq_false_of_no_match s2 req req.path
      (paths Paths.aPaths) hl
    simp [Rejected, h1, h2]
  | inr hr =>
    simp [Rejected, hr]

/-- C10, witness: the independence theorem applied to the default rule table
and path "/login" (no Admin match), with an always-true and an always-false
identity query. -/
theorem C10_witness :
    ((defaultPathsMap Paths.aPaths).any (fun p => hasPre "/login" p) = false) ∧
    Rejected ⟨adminTrueState, defaultPathsMap, true, DefaultDenyFunc⟩ ⟨"/login"⟩ =
      Rejected ⟨nonAdminState, defaultPathsMap, true, DefaultDenyFunc⟩ ⟨"/login"⟩ :=
  ⟨by decide,
    C10_query_independent defaultPathsMap true DefaultDenyFunc
      adminTrueState nonAdminState ⟨"/login"⟩ (Or.inl (by decide))⟩

end BPerm
